import Mathlib

/-
Verification of the terraform-provider-livekit repository.

The development shallowly embeds the provider code:
  * `GoTime` — the Go standard library `time.ParseDuration` that
    `AccessTokenResource.Create` delegates duration parsing to
    (src/internal/provider/access_token_resource.go:142).
  * `Livekit` — the provider itself: the provider schema, credential
    resolution in `LivekitProvider.Configure`, the access-token resource
    schema, and the resource lifecycle hooks Create/Read/ImportState
    (src/unnamed/part_000 and src/internal/provider/access_token_resource.go).

Machine integers are modelled as `Nat` with Go's explicit overflow guards
kept verbatim (`> 2^63/10`, `> 2^63`, ...); durations are `Int` nanoseconds.
-/

set_option autoImplicit false

namespace GoTime

/-- Go `time.unitMap`: suffix units accepted by `ParseDuration`,
each mapped to its length in nanoseconds.
In Go the map keys are byte strings; here they are char lists
(the two micro-sign spellings are single chars). -/
def unitMap (u : List Char) : Option Nat :=
  if u = ['n', 's'] then some 1
  else if u = ['u', 's'] then some 1000
  else if u = ['µ', 's'] then some 1000
  else if u = ['μ', 's'] then some 1000
  else if u = ['m', 's'] then some 1000000
  else if u = ['s'] then some 1000000000
  else if u = ['m'] then some 60000000000
  else if u = ['h'] then some 3600000000000
  else none

/-- Go `time.quote`, restricted to plain quoting: the escaping of
non-printable characters inside the quoted text is elided (no input in
this development contains any). -/
def quote (s : String) : String := "\"" ++ s ++ "\""

/-- The `time: invalid duration "..."` error text of `ParseDuration`. -/
def errInvalidDuration (orig : String) : String :=
  "time: invalid duration " ++ quote orig

/-- The `time: missing unit in duration "..."` error text. -/
def errMissingUnit (orig : String) : String :=
  "time: missing unit in duration " ++ quote orig

/-- The `time: unknown unit "u" in duration "..."` error text. -/
def errUnknownUnit (u : String) (orig : String) : String :=
  "time: unknown unit " ++ quote u ++ " in duration " ++ quote orig

/-- Go `time.leadingInt`: consume leading decimal digits of `s` into the
accumulator `x`, erroring (as `none`) when the `uint64` accumulator would
pass `1<<63`. Returns the value and the unconsumed remainder. -/
def leadingInt : List Char → Nat → Option (Nat × List Char)
  | [], x => some (x, [])
  | c :: s, x =>
    if c.isDigit then
      if x > 2 ^ 63 / 10 then none
      else
        let y := x * 10 + (c.toNat - '0'.toNat)
        if y > 2 ^ 63 then none
        else leadingInt s y
    else some (x, c :: s)

/-- Go `time.leadingFraction`: consume leading decimal digits after the
decimal point, accumulating value `x` and scale (a power of ten); once the
accumulator would overflow, further digits are consumed but ignored.
Go keeps `scale` in a `float64`; at the at most 19 accumulated digits the
power of ten is exact, so `Nat` is faithful. -/
def leadingFraction : List Char → Nat → Nat → Bool → Nat × Nat × List Char
  | [], x, scale, _ => (x, scale, [])
  | c :: s, x, scale, overflow =>
    if c.isDigit then
      if overflow then leadingFraction s x scale overflow
      else if x > (2 ^ 63 - 1) / 10 then leadingFraction s x scale true
      else
        let y := x * 10 + (c.toNat - '0'.toNat)
        if y > 2 ^ 63 then leadingFraction s x scale true
        else leadingFraction s y (scale * 10) false
    else (x, scale, c :: s)

/-- One `for s != ""` loop of Go `time.ParseDuration`: repeatedly consume a
`[0-9]*(\.[0-9]*)?unit` component and add its nanoseconds into `d`.
Each pass consumes at least the (nonempty) unit, so the string shrinks and
`fuel := s.length + 1` (supplied by `parseDuration`) never reaches the
unreachable fuel-0 branch.
The fractional contribution `f * unit / scale` is Go's
`uint64(float64(f) * (float64(unit) / scale))` computed in exact rational
arithmetic; both truncate toward zero. -/
def durLoop (orig : String) : Nat → List Char → Nat → Except String Nat
  | _, [], d => Except.ok d
  | 0, _ :: _, _ => Except.error (errInvalidDuration orig)
  | fuel + 1, c :: rest, d =>
    let s := c :: rest
    if !(c == '.' || c.isDigit) then Except.error (errInvalidDuration orig)
    else
      match leadingInt s 0 with
      | none => Except.error (errInvalidDuration orig)
      | some (v, s1) =>
        let pre : Bool := s1.length != s.length
        let fp : Nat × Nat × List Char × Bool :=
          match s1 with
          | '.' :: t =>
            match leadingFraction t 0 1 false with
            | (f, scale, rem) => (f, scale, rem, rem.length != t.length)
          | _ => (0, 1, s1, false)
        let f := fp.1
        let scale := fp.2.1
        let s2 := fp.2.2.1
        let post := fp.2.2.2
        if !pre && !post then Except.error (errInvalidDuration orig)
        else
          let u := s2.takeWhile (fun ch => !(ch == '.' || ch.isDigit))
          let s3 := s2.dropWhile (fun ch => !(ch == '.' || ch.isDigit))
          if u = [] then Except.error (errMissingUnit orig)
          else
            match unitMap u with
            | none => Except.error (errUnknownUnit (String.mk u) orig)
            | some unit =>
              if v > 2 ^ 63 / unit then Except.error (errInvalidDuration orig)
              else
                let v1 := v * unit
                let v2 := if f > 0 then v1 + f * unit / scale else v1
                if f > 0 && v2 > 2 ^ 63 then Except.error (errInvalidDuration orig)
                else
                  let d1 := d + v2
                  if d1 > 2 ^ 63 then Except.error (errInvalidDuration orig)
                  else durLoop orig fuel s3 d1

/-- Go `time.ParseDuration`: parse a signed sequence of decimal numbers
with optional fraction and unit suffix (`[-+]?([0-9]*(\.[0-9]*)?[a-z]+)+`)
into `Int` nanoseconds, or the verbatim Go error message. -/
def parseDuration (str : String) : Except String Int :=
  let orig := str
  let s0 := str.toList
  let negRest : Bool × List Char :=
    match s0 with
    | c :: rest => if c == '-' || c == '+' then (c == '-', rest) else (false, s0)
    | [] => (false, [])
  let neg := negRest.1
  let s := negRest.2
  if s = ['0'] then Except.ok 0
  else if s = [] then Except.error (errInvalidDuration orig)
  else
    match durLoop orig (s.length + 1) s 0 with
    | Except.error e => Except.error e
    | Except.ok d =>
      if neg then Except.ok (-(d : Int))
      else if d > 2 ^ 63 - 1 then Except.error (errInvalidDuration orig)
      else Except.ok (d : Int)

end GoTime

example : GoTime.parseDuration "1h" = Except.ok 3600000000000 := rfl
example : GoTime.parseDuration "30m" = Except.ok 1800000000000 := rfl
example : GoTime.parseDuration "1h30m" = Except.ok 5400000000000 := rfl
example : GoTime.parseDuration "tomorrow"
    = Except.error "time: invalid duration \"tomorrow\"" := rfl
example : GoTime.parseDuration ""
    = Except.error "time: invalid duration \"\"" := rfl
example : GoTime.parseDuration "1x"
    = Except.error "time: unknown unit \"x\" in duration \"1x\"" := rfl
example : GoTime.parseDuration "-1h" = Except.ok (-3600000000000) := rfl
example : GoTime.parseDuration "0s" = Except.ok 0 := rfl
example : GoTime.parseDuration "1.5h" = Except.ok 5400000000000 := rfl
example : GoTime.parseDuration "100ms" = Except.ok 100000000 := rfl
example : GoTime.parseDuration "0" = Except.ok 0 := rfl
example : GoTime.parseDuration ".5s" = Except.ok 500000000 := rfl

namespace Livekit

/-- A terraform diagnostic as produced by `Diagnostics.AddError`: an error
with a summary and a detail string. -/
structure Diagnostic where
  summary : String
  detail : String
deriving DecidableEq, Repr

/-- Framework attribute value types used by this provider's schemas. -/
inductive AttrType where
  | string
  | bool
deriving DecidableEq, Repr

/-- The plan modifiers this provider attaches to schema attributes:
`stringplanmodifier.RequiresReplace` / `boolplanmodifier.RequiresReplace`
and `stringplanmodifier.UseStateForUnknown`. -/
inductive PlanModifier where
  | requiresReplace
  | useStateForUnknown
deriving DecidableEq, Repr

/-- A schema attribute declaration: the flags and plan modifiers set by
`schema.StringAttribute` / `schema.BoolAttribute` literals in the source. -/
structure Attr where
  type : AttrType
  required : Bool := false
  optional : Bool := false
  computed : Bool := false
  sensitive : Bool := false
  default : Option String := none
  planModifiers : List PlanModifier := []
deriving DecidableEq, Repr

/-- The provider schema of `LivekitProvider.Schema`: two optional string
attributes `api_key` and `api_secret`. -/
def providerSchema : List (String × Attr) :=
  [("api_key", { type := AttrType.string, optional := true }),
   ("api_secret", { type := AttrType.string, optional := true })]

/-- The `LivekitProviderModel` configuration data: `types.String` values
that are either null (`none`) or a known string (`some`). -/
structure LivekitProviderModel where
  apiKey : Option String
  apiSecret : Option String
deriving DecidableEq, Repr

/-- The `auth.AccessToken` handle built by `auth.NewAccessToken(apiKey,
apiSecret)`: the signing key material held for the provider lifetime. -/
structure AccessToken where
  apiKey : String
  apiSecret : String
deriving DecidableEq, Repr

/-- The outcome of `provider.Configure`: the collected error diagnostics
and the token-issuing handle stored into `resp.ResourceData` (and
`resp.DataSourceData`), if one was constructed. -/
structure ConfigureResponse where
  diagnostics : List Diagnostic
  resourceData : Option AccessToken
deriving DecidableEq, Repr

/-- The diagnostic added by `Configure` when the resolved API key is empty. -/
def apiKeyMissingDiag : Diagnostic :=
  { summary := "Livekit api key missing",
    detail := "The provider cannot create the Livekit client as there is a missing or empty value for the Livekit API key. Set the api_key value in the configuration or use the LIVEKIT_API_KEY environment variable. If either is already set, ensure the value is not empty." }

/-- The diagnostic added by `Configure` when the resolved API secret is empty. -/
def apiSecretMissingDiag : Diagnostic :=
  { summary := "Livekit api secret missing",
    detail := "The provider cannot create the Livekit client as there is a missing or empty value for the Livekit API secret. Set the api_secret value in the configuration or use the LIVEKIT_API_SECRET environment variable. If either is already set, ensure the value is not empty." }

/-- `LivekitProvider.Configure` (src/unnamed/part_000:50-90): start from the
`LIVEKIT_API_KEY` / `LIVEKIT_API_SECRET` environment variables (`env` maps a
variable name to its value, `""` when unset, as `os.Getenv` does), override
each with the configuration attribute when that attribute is not null, report
an error for each of the two resolved values that is empty, and construct the
`auth.NewAccessToken` handle only when neither error occurred.
The framework decode step `req.Config.Get` is glue and is elided: `data` is
the already-decoded configuration. -/
def LivekitProvider.Configure (env : String → String)
    (data : LivekitProviderModel) : ConfigureResponse :=
  let apiKeyEnv := env "LIVEKIT_API_KEY"
  let apiSecretEnv := env "LIVEKIT_API_SECRET"
  let apiKey := match data.apiKey with
    | some v => v
    | none => apiKeyEnv
  let apiSecret := match data.apiSecret with
    | some v => v
    | none => apiSecretEnv
  let diags :=
    (if apiKey = "" then [apiKeyMissingDiag] else [])
      ++ (if apiSecret = "" then [apiSecretMissingDiag] else [])
  if diags ≠ [] then { diagnostics := diags, resourceData := none }
  else { diagnostics := [],
         resourceData := some { apiKey := apiKey, apiSecret := apiSecret } }

/-- The access-token resource schema of `AccessTokenResource.Schema`
(src/internal/provider/access_token_resource.go:50-110), attribute by
attribute with its flags, default and plan modifiers. -/
def accessTokenSchema : List (String × Attr) :=
  [("room",
    { type := AttrType.string, required := true,
      planModifiers := [PlanModifier.requiresReplace] }),
   ("identity",
    { type := AttrType.string, required := true,
      planModifiers := [PlanModifier.requiresReplace] }),
   ("can_publish",
    { type := AttrType.bool, required := true,
      planModifiers := [PlanModifier.requiresReplace] }),
   ("can_publish_data",
    { type := AttrType.bool, required := true,
      planModifiers := [PlanModifier.requiresReplace] }),
   ("can_subscribe",
    { type := AttrType.bool, required := true,
      planModifiers := [PlanModifier.requiresReplace] }),
   ("valid_for",
    { type := AttrType.string, optional := true, computed := true,
      default := some "1h",
      planModifiers := [PlanModifier.requiresReplace] }),
   ("token",
    { type := AttrType.string, computed := true, sensitive := true,
      planModifiers := [PlanModifier.useStateForUnknown] })]

/-- `AccessTokenResource.Metadata`: the resource type name is the provider
type name suffixed with `_access_token`. -/
def AccessTokenResource.Metadata (providerTypeName : String) : String :=
  providerTypeName ++ "_access_token"

/-- A registered resource, reduced to what the framework asks of it and the
claims mention: its `Metadata` type-name function and its `Schema`. -/
structure Resource where
  typeName : String → String
  schema : List (String × Attr)

/-- `NewAccessTokenResource`
(src/internal/provider/access_token_resource.go:26-28): the access-token
resource constructor. -/
def NewAccessTokenResource : Resource :=
  { typeName := AccessTokenResource.Metadata, schema := accessTokenSchema }

/-- Modelled from the spec: the definition of `NewExampleResource` is not
under src/ — only its caller `LivekitProvider.Resources`
(src/unnamed/part_000:92-96) is. The spec and the provider documentation
(src/docs/index.md) present the access-token resource
(`livekit_access_token`) as the one resource the provider exposes, so the
constructor is modelled as constructing that resource. -/
def NewExampleResource : Resource := NewAccessTokenResource

/-- `LivekitProvider.Metadata` sets the provider type name to `livekit`. -/
def LivekitProvider.typeName : String := "livekit"

/-- `LivekitProvider.Resources` (src/unnamed/part_000:92-96): the list of
resource constructors the provider registers. -/
def LivekitProvider.Resources : List Resource := [NewExampleResource]

/-- `AccessTokenResourceModel`: the resource data model. In a plan all six
configurable attributes are known concrete values (they are required, or
defaulted for `valid_for`); the computed `token` is `none` while unknown and
`some` once set. The Go `types.Bool` plan values are known booleans, so
`ValueBoolPointer` is a pointer to the plain value. -/
structure AccessTokenResourceModel where
  room : String
  identity : String
  canPublish : Bool
  canPublishData : Bool
  canSubscribe : Bool
  validFor : String
  token : Option String
deriving DecidableEq, Repr

/-- The `auth.VideoGrant` literal built in `Create`
(src/internal/provider/access_token_resource.go:148-154). -/
structure VideoGrant where
  room : String
  canPublish : Bool
  canPublishData : Bool
  canSubscribe : Bool
  roomJoin : Bool
deriving DecidableEq, Repr

/-- The external signing primitive (the livekit `protocol/auth` library, out
of this repository): the chain `apiKeys.AddGrant(grant).SetIdentity(id).
SetValidFor(d).ToJWT()`, abstracted as a function from the grant, identity
and validity duration (nanoseconds) it was configured with to a JWT string
or an error. -/
def SignFn : Type := VideoGrant → String → Int → Except String String

/-- The outcome of a Create/Read/Update call: the collected diagnostics and
the state written by `resp.State.Set` (`none` when the call returned before
any `State.Set`). -/
structure ResourceResponse where
  diagnostics : List Diagnostic
  state : Option AccessTokenResourceModel
deriving DecidableEq, Repr

/-- `AccessTokenResource.Create`
(src/internal/provider/access_token_resource.go:132-171): parse `valid_for`
with Go `time.ParseDuration`, aborting with an `Invalid valid_for ` error
diagnostic on failure; build the `VideoGrant` from the planned room and
permission flags with `RoomJoin: true`; sign with the planned identity and
the parsed duration, aborting with an `Error creating JWT` diagnostic on
failure; only then store the JWT into the model and write it as state.
The framework decode step `req.Plan.Get` is glue and is elided: `plan` is
the already-decoded plan data. -/
def AccessTokenResource.Create (sign : SignFn)
    (plan : AccessTokenResourceModel) : ResourceResponse :=
  match GoTime.parseDuration plan.validFor with
  | Except.error e =>
    { diagnostics := [{ summary := "Invalid valid_for ", detail := e }],
      state := none }
  | Except.ok validFor =>
    let grant : VideoGrant :=
      { room := plan.room,
        canPublish := plan.canPublish,
        canPublishData := plan.canPublishData,
        canSubscribe := plan.canSubscribe,
        roomJoin := true }
    match sign grant plan.identity validFor with
    | Except.error e =>
      { diagnostics := [{ summary := "Error creating JWT", detail := e }],
        state := none }
    | Except.ok jwt =>
      { diagnostics := [], state := some { plan with token := some jwt } }

/-- `AccessTokenResource.Read`
(src/internal/provider/access_token_resource.go:173-185): decode the prior
state and write the same data back, consulting nothing else — no signer, no
environment, no external call. The framework decode step `req.State.Get` is
glue and is elided: `prior` is the already-decoded prior state. -/
def AccessTokenResource.Read
    (prior : AccessTokenResourceModel) : ResourceResponse :=
  { diagnostics := [], state := some prior }

/-- `resource.ImportStatePassthroughID` (framework helper): set the
attribute at the given root path to the import request identifier. -/
def ImportStatePassthroughID (rootPath : String) (reqID : String) :
    List (String × String) :=
  [(rootPath, reqID)]

/-- `AccessTokenResource.ImportState`
(src/internal/provider/access_token_resource.go:216-218): pass the request
identifier through to the root attribute path `id`. -/
def AccessTokenResource.ImportState (reqID : String) :
    List (String × String) :=
  ImportStatePassthroughID "id" reqID

end Livekit

/-- C1: the provider registers the access-token resource — the constructor
list returned by `LivekitProvider.Resources` contains
`NewAccessTokenResource`, and the resource it constructs has type name
equal to the provider type name suffixed with `_access_token`. -/
theorem c1_provider_registers_access_token_resource :
    Livekit.NewAccessTokenResource ∈ Livekit.LivekitProvider.Resources ∧
      Livekit.NewAccessTokenResource.typeName Livekit.LivekitProvider.typeName
        = Livekit.LivekitProvider.typeName ++ "_access_token" :=
  ⟨List.mem_singleton.mpr rfl, rfl⟩

/-- C2: each of the six configurable attributes of the access-token schema
(room, identity, can_publish, can_publish_data, can_subscribe, valid_for)
carries a requires-replace plan modifier, and the computed token attribute
carries the use-state-for-unknown plan modifier (so it is preserved from
prior state while unknown). -/
theorem c2_schema_forces_replacement :
    (["room", "identity", "can_publish", "can_publish_data",
        "can_subscribe", "valid_for"].all fun name =>
      (List.lookup name Livekit.accessTokenSchema).any fun a =>
        a.planModifiers.contains Livekit.PlanModifier.requiresReplace) = true ∧
    ((List.lookup "token" Livekit.accessTokenSchema).any fun a =>
      a.computed && a.sensitive &&
        a.planModifiers.contains Livekit.PlanModifier.useStateForUnknown) = true := by
  decide

/-- C7: for every decoded prior state, Read writes back exactly the prior
state — in particular the stored token unchanged — and reports no
diagnostics; it consults no signer, environment or external system. -/
theorem c7_read_preserves_state (prior : Livekit.AccessTokenResourceModel) :
    Livekit.AccessTokenResource.Read prior
        = { diagnostics := [], state := some prior } ∧
      (Livekit.AccessTokenResource.Read prior).state.map
          (fun m => m.token) = some prior.token :=
  ⟨rfl, rfl⟩

/-- C9 counterexample: the access-token resource schema does not declare an
`id` attribute, refuting the claim that the schema declares the attribute
that ImportState writes the passthrough identifier to. -/
theorem c9_counterexample_no_id_attribute :
    ¬ ("id" ∈ Livekit.accessTokenSchema.map Prod.fst) := by
  decide

/-- C9 amended: Import accepts a single opaque identifier and passes it
through unchanged to the root attribute path `id`; the resource schema,
however, declares no `id` attribute. -/
theorem c9_import_passthrough_id (reqID : String) :
    Livekit.AccessTokenResource.ImportState reqID = [("id", reqID)] ∧
      ¬ ("id" ∈ Livekit.accessTokenSchema.map Prod.fst) :=
  ⟨rfl, by decide⟩

/-- C3: Create aborts with the invalid-duration diagnostic (summary
`Invalid valid_for `, detail the Go parse error) and writes no state exactly
when the planned `valid_for` fails to parse as a Go duration; `1h`, `30m`
and `1h30m` parse successfully while `tomorrow`, the empty string and `1x`
fail. -/
theorem c3_create_fails_iff_duration_invalid :
    (∀ (sign : Livekit.SignFn) (plan : Livekit.AccessTokenResourceModel),
      (∃ e, GoTime.parseDuration plan.validFor = Except.error e) ↔
        ∃ e, Livekit.AccessTokenResource.Create sign plan =
          { diagnostics := [{ summary := "Invalid valid_for ", detail := e }],
            state := none }) ∧
    GoTime.parseDuration "1h" = Except.ok 3600000000000 ∧
    GoTime.parseDuration "30m" = Except.ok 1800000000000 ∧
    GoTime.parseDuration "1h30m" = Except.ok 5400000000000 ∧
    GoTime.parseDuration "tomorrow"
      = Except.error "time: invalid duration \"tomorrow\"" ∧
    GoTime.parseDuration "" = Except.error "time: invalid duration \"\"" ∧
    GoTime.parseDuration "1x"
      = Except.error "time: unknown unit \"x\" in duration \"1x\"" := by
  refine ⟨?_, rfl, rfl, rfl, rfl, rfl, rfl⟩
  intro sign plan
  constructor
  · rintro ⟨e, he⟩
    exact ⟨e, by simp [Livekit.AccessTokenResource.Create, he]⟩
  · rintro ⟨e, he⟩
    cases h : GoTime.parseDuration plan.validFor with
    | error e2 => exact ⟨e2, rfl⟩
    | ok d =>
      cases hs : sign
          { room := plan.room, canPublish := plan.canPublish,
            canPublishData := plan.canPublishData,
            canSubscribe := plan.canSubscribe, roomJoin := true }
          plan.identity d with
      | ok jwt => simp [Livekit.AccessTokenResource.Create, h, hs] at he
      | error e3 => simp [Livekit.AccessTokenResource.Create, h, hs] at he

/-- C4: when the resolved API key and the resolved API secret are both
empty, Configure reports the two distinct error diagnostics — one for the
missing key and one for the missing secret — and constructs no
token-issuing handle. -/
theorem c4_configure_reports_both_errors (env : String → String)
    (data : Livekit.LivekitProviderModel)
    (hk : data.apiKey.getD (env "LIVEKIT_API_KEY") = "")
    (hs : data.apiSecret.getD (env "LIVEKIT_API_SECRET") = "") :
    Livekit.LivekitProvider.Configure env data =
      { diagnostics := [Livekit.apiKeyMissingDiag, Livekit.apiSecretMissingDiag],
        resourceData := none } ∧
      Livekit.apiKeyMissingDiag ≠ Livekit.apiSecretMissingDiag := by
  refine ⟨?_, by decide⟩
  cases hk2 : data.apiKey <;> cases hs2 : data.apiSecret <;>
    simp [hk2, hs2] at hk hs <;>
    simp [Livekit.LivekitProvider.Configure, hk2, hs2, hk, hs]

/-- C4 witness: with no configuration values and empty environment
variables, Configure yields exactly the two diagnostics and no handle. -/
theorem c4_configure_reports_both_errors_witness :
    Livekit.LivekitProvider.Configure (fun _ => "")
        { apiKey := none, apiSecret := none } =
      { diagnostics := [Livekit.apiKeyMissingDiag, Livekit.apiSecretMissingDiag],
        resourceData := none } ∧
      Livekit.apiKeyMissingDiag ≠ Livekit.apiSecretMissingDiag :=
  c4_configure_reports_both_errors (fun _ => "")
    { apiKey := none, apiSecret := none } rfl rfl

/-- C5: on every Create whose `valid_for` parses, the signer is invoked
with the grant carrying exactly the planned room, the three planned
permission booleans and a room-join flag that is true, together with the
planned identity and the parsed duration; its answer alone determines the
outcome. -/
theorem c5_create_signs_planned_grant (sign : Livekit.SignFn)
    (plan : Livekit.AccessTokenResourceModel) (d : Int)
    (h : GoTime.parseDuration plan.validFor = Except.ok d) :
    Livekit.AccessTokenResource.Create sign plan =
      match sign
          { room := plan.room, canPublish := plan.canPublish,
            canPublishData := plan.canPublishData,
            canSubscribe := plan.canSubscribe, roomJoin := true }
          plan.identity d with
      | Except.ok jwt =>
        { diagnostics := [], state := some { plan with token := some jwt } }
      | Except.error e =>
        { diagnostics := [{ summary := "Error creating JWT", detail := e }],
          state := none } := by
  cases hs : sign
      { room := plan.room, canPublish := plan.canPublish,
        canPublishData := plan.canPublishData,
        canSubscribe := plan.canSubscribe, roomJoin := true }
      plan.identity d with
  | ok jwt => simp [Livekit.AccessTokenResource.Create, h, hs]
  | error e => simp [Livekit.AccessTokenResource.Create, h, hs]

/-- C5 witness: a concrete Create with `valid_for = "1h"` and a signer that
returns a fixed JWT stores exactly that JWT on the planned model. -/
theorem c5_create_signs_planned_grant_witness :
    Livekit.AccessTokenResource.Create (fun _ _ _ => Except.ok "signed")
        { room := "room1", identity := "alice", canPublish := true,
          canPublishData := false, canSubscribe := true,
          validFor := "1h", token := none } =
      { diagnostics := [],
        state := some
          { room := "room1", identity := "alice", canPublish := true,
            canPublishData := false, canSubscribe := true,
            validFor := "1h", token := some "signed" } } :=
  c5_create_signs_planned_grant (fun _ _ _ => Except.ok "signed")
    { room := "room1", identity := "alice", canPublish := true,
      canPublishData := false, canSubscribe := true,
      validFor := "1h", token := none } 3600000000000 rfl

/-- C6: Create is atomic — it either succeeds with no diagnostics, writing
a state that is the plan with the produced JWT stored, or it fails with an
error diagnostic and writes no state at all. -/
theorem c6_create_atomic (sign : Livekit.SignFn)
    (plan : Livekit.AccessTokenResourceModel) :
    (∃ jwt, Livekit.AccessTokenResource.Create sign plan =
        { diagnostics := [],
          state := some { plan with token := some jwt } }) ∨
      ((Livekit.AccessTokenResource.Create sign plan).state = none ∧
        (Livekit.AccessTokenResource.Create sign plan).diagnostics ≠ []) := by
  cases h : GoTime.parseDuration plan.validFor with
  | error e =>
    right
    simp [Livekit.AccessTokenResource.Create, h]
  | ok d =>
    cases hs : sign
        { room := plan.room, canPublish := plan.canPublish,
          canPublishData := plan.canPublishData,
          canSubscribe := plan.canSubscribe, roomJoin := true }
        plan.identity d with
    | error e =>
      right
      simp [Livekit.AccessTokenResource.Create, h, hs]
    | ok jwt =>
      left
      exact ⟨jwt, by simp [Livekit.AccessTokenResource.Create, h, hs]⟩

/-- C8: credential resolution is independent per credential — whenever both
resolved values (the configured attribute when set, the environment
variable otherwise) are nonempty, Configure succeeds and the handle carries
exactly those two resolved values. -/
theorem c8_credential_resolution (env : String → String)
    (data : Livekit.LivekitProviderModel)
    (hk : data.apiKey.getD (env "LIVEKIT_API_KEY") ≠ "")
    (hs : data.apiSecret.getD (env "LIVEKIT_API_SECRET") ≠ "") :
    Livekit.LivekitProvider.Configure env data =
      { diagnostics := [],
        resourceData := some
          { apiKey := data.apiKey.getD (env "LIVEKIT_API_KEY"),
            apiSecret := data.apiSecret.getD (env "LIVEKIT_API_SECRET") } } := by
  cases hk2 : data.apiKey <;> cases hs2 : data.apiSecret <;>
    simp [hk2, hs2] at hk hs ⊢ <;>
    simp [Livekit.LivekitProvider.Configure, hk2, hs2, hk, hs]

/-- C8 witness: the key comes from the configuration while the secret falls
back to its environment variable, each resolved independently. -/
theorem c8_credential_resolution_witness :
    Livekit.LivekitProvider.Configure
        (fun name => if name = "LIVEKIT_API_SECRET" then "env-secret" else "")
        { apiKey := some "cfg-key", apiSecret := none } =
      { diagnostics := [],
        resourceData := some
          { apiKey := "cfg-key", apiSecret := "env-secret" } } :=
  c8_credential_resolution
    (fun name => if name = "LIVEKIT_API_SECRET" then "env-secret" else "")
    { apiKey := some "cfg-key", apiSecret := none } (by decide) (by decide)

/-- C10: Create accepts the full Go duration syntax — `-1h`, `0s`, `1.5h`
and `100ms` all parse (to negative, zero, fractional-hour and millisecond
durations) and, with any signer that succeeds, Create issues a token and
writes state. -/
theorem c10_full_go_duration_syntax :
    GoTime.parseDuration "-1h" = Except.ok (-3600000000000) ∧
    GoTime.parseDuration "0s" = Except.ok 0 ∧
    GoTime.parseDuration "1.5h" = Except.ok 5400000000000 ∧
    GoTime.parseDuration "100ms" = Except.ok 100000000 ∧
    ∀ (sign : Livekit.SignFn) (plan : Livekit.AccessTokenResourceModel),
      (∀ g i d, ∃ jwt, sign g i d = Except.ok jwt) →
      (plan.validFor = "-1h" ∨ plan.validFor = "0s" ∨
        plan.validFor = "1.5h" ∨ plan.validFor = "100ms") →
      (Livekit.AccessTokenResource.Create sign plan).state.isSome = true ∧
        (Livekit.AccessTokenResource.Create sign plan).diagnostics = [] := by
  refine ⟨rfl, rfl, rfl, rfl, ?_⟩
  intro sign plan hsign hv
  have hparse : ∃ dur : Int,
      GoTime.parseDuration plan.validFor = Except.ok dur := by
    rcases hv with h | h | h | h <;> rw [h] <;> exact ⟨_, rfl⟩
  obtain ⟨dur, hd⟩ := hparse
  obtain ⟨jwt, hj⟩ := hsign
    { room := plan.room, canPublish := plan.canPublish,
      canPublishData := plan.canPublishData,
      canSubscribe := plan.canSubscribe, roomJoin := true }
    plan.identity dur
  constructor <;> simp [Livekit.AccessTokenResource.Create, hd, hj]

/-- C10 witness: a concrete Create with negative validity `-1h` and an
always-succeeding signer writes state and reports no diagnostics. -/
theorem c10_full_go_duration_syntax_witness :
    (Livekit.AccessTokenResource.Create (fun _ _ _ => Except.ok "jwt")
        { room := "r", identity := "i", canPublish := false,
          canPublishData := false, canSubscribe := false,
          validFor := "-1h", token := none }).state.isSome = true ∧
      (Livekit.AccessTokenResource.Create (fun _ _ _ => Except.ok "jwt")
        { room := "r", identity := "i", canPublish := false,
          canPublishData := false, canSubscribe := false,
          validFor := "-1h", token := none }).diagnostics = [] :=
  c10_full_go_duration_syntax.2.2.2.2 (fun _ _ _ => Except.ok "jwt")
    { room := "r", identity := "i", canPublish := false,
      canPublishData := false, canSubscribe := false,
      validFor := "-1h", token := none }
    (fun _ _ _ => ⟨"jwt", rfl⟩) (Or.inl rfl)
